import Mathlib

/-!
Verification of the brin-api sentiment backend (src/server.js,
src/unnamed/part_000, src/postgresDB.js) against its specification.

The store adapter and the HTTP handlers are shallowly embedded: the
PostgreSQL table becomes an explicit list of rows threaded through the
adapter operations, JavaScript numbers become rationals, and the
asynchronous handler code becomes explicit state passing.  The table DDL
is not part of the repository; where the behaviour of the table itself
decides a claim it is modelled from the specification and marked as such.
-/

namespace BrinApi

/-- The nested probability object of a request body.  Each field is
optional because a JavaScript caller may omit any of them. -/
structure Probs where
  positive : Option ℚ
  negative : Option ℚ
  neutral : Option ℚ
  deriving Repr, DecidableEq

/-- A complete probability triple, as reshaped by the adapter from the
three flattened columns of a persisted row. -/
structure ProbTriple where
  positive : ℚ
  negative : ℚ
  neutral : ℚ
  deriving Repr, DecidableEq

/-- One persisted row of the sentiment_analysis table. -/
structure Row where
  id : ℕ
  text : String
  predicted_class : String
  confidence : ℚ
  positive_prob : ℚ
  negative_prob : ℚ
  neutral_prob : ℚ
  source : String
  created_at : ℕ
  deriving Repr, DecidableEq

/-- The state of the store adapter: whether a connection pool was
configured (src/postgresDB.js builds one only when DATABASE_URL is set)
together with the table contents and the next server-assigned id. -/
structure DbState where
  pool : Bool
  rows : List Row
  nextId : ℕ
  deriving Repr, DecidableEq

/-- The argument object handed to insertSentimentAnalysis.  All fields
optional: JavaScript property access on a missing field yields undefined. -/
structure AnalysisData where
  text : Option String
  predicted_class : Option String
  confidence : Option ℚ
  all_probabilities : Option Probs
  source : Option String
  deriving Repr, DecidableEq

/-- A record as returned to callers: the persisted row spread together
with the reshaped nested all_probabilities object. -/
structure OutRecord where
  row : Row
  all_probabilities : ProbTriple
  deriving Repr, DecidableEq

/-- Result object of insertSentimentAnalysis. -/
structure InsertResult where
  success : Bool
  id : Option ℕ
  data : Option OutRecord
  error : Option String
  deriving Repr, DecidableEq

/-- Result object of clearAllData. -/
structure ClearResult where
  success : Bool
  message : Option String
  error : Option String
  deriving Repr, DecidableEq

/-- JavaScript s1 || s2 on an optional string: undefined and the empty
string are falsy, so both fall through to the default. -/
def jsOrStr (o : Option String) (dflt : String) : String :=
  match o with
  | none => dflt
  | some s => if s = "" then dflt else s

/-- The effective source column value used by the adapter:
analysisData.source or the web_analyzer default (src/postgresDB.js). -/
def effectiveSource (o : Option String) : String :=
  jsOrStr o "web_analyzer"

/-- Whether the modelled INSERT query would be rejected by the table.
Modelled from the spec: the sentiment_analysis DDL is not under src/;
section 3 of the spec marks text, predicted_class and confidence required
and the probability triple complete, so the modelled table rejects a null
value in any of those columns and no row is written. -/
def insertValuesNull (d : AnalysisData) (p : Probs) : Bool :=
  d.text.isNone || d.predicted_class.isNone || d.confidence.isNone ||
    p.positive.isNone || p.negative.isNone || p.neutral.isNone

/-- insertSentimentAnalysis (src/postgresDB.js).  Without a pool it
returns success false; reading .positive off an undefined
all_probabilities raises a TypeError that the surrounding try/catch turns
into success false; a null in a required column makes the modelled query
fail inside the same catch; otherwise the row is written with a
server-assigned id and created_at and echoed back with the three
probability columns reshaped into a nested object. -/
def insertSentimentAnalysis (st : DbState) (d : AnalysisData) :
    DbState × InsertResult :=
  if st.pool = false then
    (st, ⟨false, none, none, some "PostgreSQL not configured"⟩)
  else
    match d.all_probabilities with
    | none =>
        (st, ⟨false, none, none,
          some "TypeError: cannot read properties of undefined"⟩)
    | some p =>
        if insertValuesNull d p then
          (st, ⟨false, none, none,
            some "null value in column violates not-null constraint"⟩)
        else
          let row : Row :=
            { id := st.nextId
              text := d.text.getD ""
              predicted_class := d.predicted_class.getD ""
              confidence := d.confidence.getD 0
              positive_prob := p.positive.getD 0
              negative_prob := p.negative.getD 0
              neutral_prob := p.neutral.getD 0
              source := effectiveSource d.source
              created_at := st.nextId }
          ({ st with rows := st.rows ++ [row], nextId := st.nextId + 1 },
            ⟨true, some row.id,
              some ⟨row, ⟨row.positive_prob, row.negative_prob,
                row.neutral_prob⟩⟩,
              none⟩)

/-- Ordering used by ORDER BY created_at DESC: a row comes first when its
created_at is at least the other one. -/
def rowGE (a b : Row) : Prop := b.created_at ≤ a.created_at

instance : DecidableRel rowGE := fun a b => Nat.decLe b.created_at a.created_at

instance : IsTotal Row rowGE := ⟨fun a b => Nat.le_total b.created_at a.created_at⟩

instance : IsTrans Row rowGE := ⟨fun _ _ _ h h₂ => le_trans h₂ h⟩

/-- Reshape a stored row into the caller-facing record with the nested
all_probabilities object (the map applied to every query result). -/
def toOutRecord (r : Row) : OutRecord :=
  ⟨r, ⟨r.positive_prob, r.negative_prob, r.neutral_prob⟩⟩

/-- getAllSentimentData (src/postgresDB.js): every row ordered by
created_at descending, reshaped; empty when no pool is configured. -/
def getAllSentimentData (st : DbState) : List OutRecord :=
  if st.pool = false then []
  else (st.rows.insertionSort rowGE).map toOutRecord

/-- getRecentEntries (src/postgresDB.js): same ordering bounded by LIMIT,
default 10; empty when no pool is configured. -/
def getRecentEntries (st : DbState) (limit : ℕ := 10) : List OutRecord :=
  if st.pool = false then []
  else ((st.rows.insertionSort rowGE).map toOutRecord).take limit

/-- One row of the GROUP BY result of getSentimentStats after the
JavaScript post-processing. -/
structure StatEntry where
  predicted_class : String
  count : ℕ
  avg_confidence : ℚ
  percentage : ℚ
  deriving Repr, DecidableEq

/-- Round a rational to two decimal places, as ROUND(x, 2) does for the
nonnegative numerics that occur here. -/
def round2 (q : ℚ) : ℚ := (round (q * 100) : ℚ) / 100

/-- Round a rational to four decimal places, as the toFixed(4) call does
for the nonnegative numerics that occur here. -/
def round4 (q : ℚ) : ℚ := (round (q * 10000) : ℚ) / 10000

/-- COUNT(*) of one predicted_class group. -/
def classCount (rows : List Row) (c : String) : ℕ :=
  (rows.filter (fun r => r.predicted_class = c)).length

/-- Sum of the confidences of one predicted_class group. -/
def classConfSum (rows : List Row) (c : String) : ℚ :=
  ((rows.filter (fun r => r.predicted_class = c)).map Row.confidence).sum

/-- AVG(confidence) of one predicted_class group. -/
def classMean (rows : List Row) (c : String) : ℚ :=
  classConfSum rows c / (classCount rows c : ℚ)

/-- The stats row the query produces for one predicted_class group:
exact count, average confidence rounded to 4 decimals by toFixed, and
percentage of the grand total rounded to 2 decimals by the SQL ROUND. -/
def mkStatEntry (rows : List Row) (c : String) : StatEntry :=
  ⟨c, classCount rows c, round4 (classMean rows c),
    round2 ((classCount rows c : ℚ) * 100 / (rows.length : ℚ))⟩

/-- Ordering used by ORDER BY count DESC on the grouped rows. -/
def statGE (a b : StatEntry) : Prop := b.count ≤ a.count

instance : DecidableRel statGE := fun a b => Nat.decLe b.count a.count

instance : IsTotal StatEntry statGE := ⟨fun a b => Nat.le_total b.count a.count⟩

instance : IsTrans StatEntry statGE := ⟨fun _ _ _ h h₂ => le_trans h₂ h⟩

/-- The distinct predicted_class values present in the table: the groups
the GROUP BY clause produces. -/
def classesOf (rows : List Row) : List String :=
  (rows.map Row.predicted_class).dedup

/-- getSentimentStats (src/postgresDB.js): GROUP BY predicted_class with
COUNT, AVG(confidence) and the percentage of the grand total, ordered by
count descending; empty when no pool is configured.  The GROUP BY emits
one row per distinct class in an order the engine does not fix; the
embedding takes the deduplicated class list. -/
def getSentimentStats (st : DbState) : List StatEntry :=
  if st.pool = false then []
  else
    ((classesOf st.rows).map (mkStatEntry st.rows)).insertionSort statGE

/-- One chart entry as produced by getChartData. -/
structure ChartEntry where
  name : String
  value : ℚ
  count : ℕ
  avgConfidence : ℚ
  color : String
  deriving Repr, DecidableEq

/-- charAt(0).toUpperCase() + slice(1) on a label. -/
def capitalize (s : String) : String :=
  match s.data with
  | [] => ""
  | c :: cs => ⟨c.toUpper :: cs⟩

/-- getSentimentColor (src/postgresDB.js): fixed label-to-color map with
a gray default. -/
def getSentimentColor (sentiment : String) : String :=
  if sentiment = "positive" then "#22c55e"
  else if sentiment = "negative" then "#ef4444"
  else if sentiment = "neutral" then "#6b7280"
  else "#6b7280"

/-- getChartData (src/postgresDB.js): display projection of the stats. -/
def getChartData (st : DbState) : List ChartEntry :=
  (getSentimentStats st).map fun stat =>
    ⟨capitalize stat.predicted_class, stat.percentage, stat.count,
      stat.avg_confidence, getSentimentColor stat.predicted_class⟩

/-- Result of the count-and-last-updated query (getDatabaseStats). -/
structure DatabaseStats where
  total_entries : ℕ
  last_updated : Option ℕ
  deriving Repr, DecidableEq

/-- getDatabaseStats (src/postgresDB.js): COUNT(*) together with
MAX(created_at), which is null on an empty table; zeros when no pool is
configured. -/
def getDatabaseStats (st : DbState) : DatabaseStats :=
  if st.pool = false then ⟨0, none⟩
  else ⟨st.rows.length, (st.rows.map Row.created_at).max?⟩

/-- Result object of getDatabaseInfo. -/
structure DatabaseInfo where
  total_entries : ℕ
  last_updated : Option ℕ
  database_type : String
  connection_status : String
  deriving Repr, DecidableEq

/-- getDatabaseInfo (src/postgresDB.js). -/
def getDatabaseInfo (st : DbState) : DatabaseInfo :=
  if st.pool = false then
    ⟨0, none, "PostgreSQL (Not Configured)", "disconnected"⟩
  else
    let stats := getDatabaseStats st
    ⟨stats.total_entries, stats.last_updated, "PostgreSQL", "connected"⟩

/-- clearAllData (src/postgresDB.js): DELETE FROM sentiment_analysis;
success false with a message when no pool is configured. -/
def clearAllData (st : DbState) : DbState × ClearResult :=
  if st.pool = false then
    (st, ⟨false, none, some "PostgreSQL not configured"⟩)
  else
    ({ st with rows := [] },
      ⟨true, some "All data cleared successfully", none⟩)

/-- The payload bundled by broadcastDataUpdate and by the
sentiment-stats endpoint (src/unnamed/part_000). -/
structure Payload where
  statistics : List StatEntry
  chart_data : List ChartEntry
  recent_entries : List OutRecord
  database_info : DatabaseInfo
  deriving Repr, DecidableEq

/-- The aggregate payload computed inside broadcastDataUpdate. -/
def broadcastPayload (st : DbState) : Payload :=
  ⟨getSentimentStats st, getChartData st, getRecentEntries st 5,
    getDatabaseInfo st⟩

/-- The try block of broadcastDataUpdate: computing the payload may fail
(a query rejection is injected abstractly as the fail argument). -/
def broadcastBody (st : DbState) (fail : Option String) :
    Except String Payload :=
  match fail with
  | some e => Except.error e
  | none => Except.ok (broadcastPayload st)

/-- broadcastDataUpdate (src/unnamed/part_000): the whole body sits in a
try/catch whose catch only logs, so a failure computing or publishing the
payload is swallowed and nothing is emitted; on success the payload is
emitted to all subscribers.  The result is never an error. -/
def broadcastDataUpdate (st : DbState) (fail : Option String) :
    Except String (Option Payload) :=
  match broadcastBody st fail with
  | Except.ok p => Except.ok (some p)
  | Except.error _ => Except.ok none

/-- A request body for POST /api/save-sentiment; every field optional,
and a source field a caller may try to supply. -/
structure RequestBody where
  text : Option String
  predicted_class : Option String
  confidence : Option ℚ
  all_probabilities : Option Probs
  source : Option String
  deriving Repr, DecidableEq

/-- JavaScript truthiness of an optional string: undefined and the empty
string are falsy. -/
def truthyStr (o : Option String) : Bool :=
  match o with
  | none => false
  | some s => s ≠ ""

/-- JavaScript truthiness of an optional number: undefined and 0 are
falsy. -/
def truthyNum (o : Option ℚ) : Bool :=
  match o with
  | none => false
  | some q => q ≠ 0

/-- The argument object the save-sentiment handler builds for
insertSentimentAnalysis: only the four destructured body fields, with
source fixed to web_analyzer (src/unnamed/part_000). -/
def handlerInsertArg (b : RequestBody) : AnalysisData :=
  ⟨b.text, b.predicted_class, b.confidence, b.all_probabilities,
    some "web_analyzer"⟩

/-- The handler presence check: every destructured field must be truthy,
the negation of the JavaScript !text, !predicted_class, !confidence,
!all_probabilities chain. -/
def hasRequiredFields (b : RequestBody) : Bool :=
  truthyStr b.text && truthyStr b.predicted_class &&
    truthyNum b.confidence && b.all_probabilities.isSome

/-- An HTTP response of the save-sentiment endpoint. -/
structure SaveResp where
  status : ℕ
  success : Bool
  message : Option String
  error : Option String
  data : Option OutRecord
  current_stats : Option (List StatEntry)
  chart_data : Option (List ChartEntry)
  deriving Repr, DecidableEq

/-- The 400 response for a failed presence check. -/
def missingFieldsResp : SaveResp :=
  ⟨400, false, none,
    some "Missing required fields: text, predicted_class, confidence, all_probabilities",
    none, none, none⟩

/-- POST /api/save-sentiment (src/unnamed/part_000).  The handler first
applies the truthiness presence check and returns 400 without touching
the store when it fails.  Otherwise it calls insertSentimentAnalysis
WITHOUT await: the insert itself still runs (the state advances), but the
local result is a pending Promise, so reading result.success yields
undefined, which is falsy; the handler therefore always takes the else
branch and answers 500 with error set to result.error, also undefined.
The success branch (stats, chart, broadcast, 200) is unreachable. -/
def saveSentimentHandler (st : DbState) (b : RequestBody)
    (bfail : Option String) : DbState × SaveResp :=
  if hasRequiredFields b = false then
    (st, missingFieldsResp)
  else
    let step := insertSentimentAnalysis st (handlerInsertArg b)
    let st₁ := step.1
    let promiseSuccess : Bool := false
    if promiseSuccess then
      match broadcastDataUpdate st₁ bfail with
      | Except.error _ =>
          (st₁, ⟨500, false, none, some "Internal server error",
            none, none, none⟩)
      | Except.ok _ =>
          (st₁, ⟨200, true, some "Sentiment analysis saved successfully",
            none, step.2.data, some (getSentimentStats st₁),
            some (getChartData st₁)⟩)
    else
      (st₁, ⟨500, false, none, none, none, none, none⟩)

/-- An HTTP response of the sentiment-data endpoint. -/
structure DataResp where
  success : Bool
  data : List OutRecord
  total : ℕ
  deriving Repr, DecidableEq

/-- GET /api/sentiment-data (src/unnamed/part_000): fetch everything,
then slice the already-retrieved list to the first N entries when a
numeric limit parameter was supplied; total counts the full list. -/
def sentimentDataHandler (st : DbState) (limit : Option ℕ) : DataResp :=
  let allData := getAllSentimentData st
  let data := match limit with
    | some n => allData.take n
    | none => allData
  ⟨true, data, allData.length⟩

/-- An HTTP response of the clear-data endpoint. -/
structure ClearResp where
  status : ℕ
  success : Bool
  message : Option String
  error : Option String
  deriving Repr, DecidableEq

/-- DELETE /api/clear-data (src/unnamed/part_000): clear, then on
success await a broadcast (whose own failures are swallowed inside
broadcastDataUpdate; an error escaping it would hit the handler catch and
turn into a generic 500) and answer 200; on adapter failure answer 500
with the adapter error or a default. -/
def clearDataHandler (st : DbState) (bfail : Option String) :
    DbState × ClearResp :=
  let step := clearAllData st
  if step.2.success then
    match broadcastDataUpdate step.1 bfail with
    | Except.error _ =>
        (step.1, ⟨500, false, none, some "Failed to clear data"⟩)
    | Except.ok _ =>
        (step.1,
          ⟨200, true, some "All sentiment data cleared successfully", none⟩)
  else
    (step.1, ⟨500, false, none, some (jsOrStr step.2.error "Failed to clear data")⟩)

/-- The response shape of the clear-data endpoint as a function of the
adapter result alone. -/
def clearRespOfResult (r : ClearResult) : ClearResp :=
  if r.success then
    ⟨200, true, some "All sentiment data cleared successfully", none⟩
  else
    ⟨500, false, none, some (jsOrStr r.error "Failed to clear data")⟩

/-- The statistics contract as the specification words it: empty output
for a degraded adapter or an empty store, and otherwise one entry per
distinct predicted_class carrying the exact group count, the mean
confidence rounded to 4 decimals and the share of the grand total
rounded to 2 decimals, ordered by descending count. -/
def statsSpec (st : DbState) (out : List StatEntry) : Prop :=
  (st.pool = false → out = []) ∧
  (st.rows = [] → out = []) ∧
  (st.pool = true →
    (out.map StatEntry.predicted_class).Perm (classesOf st.rows) ∧
    (∀ c, c ∈ classesOf st.rows ↔ c ∈ st.rows.map Row.predicted_class) ∧
    (∀ e ∈ out,
      e.count = classCount st.rows e.predicted_class ∧
      e.avg_confidence = round4 (classMean st.rows e.predicted_class) ∧
      e.percentage =
        round2 ((classCount st.rows e.predicted_class : ℚ) * 100 /
          (st.rows.length : ℚ))) ∧
    List.Sorted statGE out)

/-- A connected adapter over an empty table. -/
def emptyConnectedState : DbState := ⟨true, [], 1⟩

/-- A degraded adapter: no DATABASE_URL, hence no pool. -/
def degradedState : DbState := ⟨false, [], 1⟩

/-- A fully valid save-sentiment request body. -/
def validSaveBody : RequestBody :=
  ⟨some "great product", some "positive", some 1,
    some ⟨some (95/100), some (3/100), some (2/100)⟩, none⟩

/-- An insert argument whose required text field is absent. -/
def missingTextData : AnalysisData :=
  ⟨none, some "positive", some 1, some ⟨some 1, some 0, some 0⟩, none⟩

/-- Sample persisted rows with distinct creation times. -/
def rowA : Row := ⟨1, "a", "positive", 9/10, 1/2, 1/4, 1/4, "web_analyzer", 1⟩

def rowB : Row := ⟨2, "b", "negative", 8/10, 1/2, 1/4, 1/4, "web_analyzer", 2⟩

def rowC : Row := ⟨3, "c", "positive", 7/10, 1/2, 1/4, 1/4, "web_analyzer", 3⟩

def rowD : Row := ⟨4, "d", "neutral", 6/10, 1/2, 1/4, 1/4, "web_analyzer", 4⟩

def rowE : Row := ⟨5, "e", "positive", 5/10, 1/2, 1/4, 1/4, "web_analyzer", 5⟩

/-- A connected adapter holding five records. -/
def sampleState5 : DbState := ⟨true, [rowA, rowB, rowC, rowD, rowE], 6⟩

/-- Claim C4: with no connection pool configured every adapter operation
is a safe no-op: the list, recent, stats and chart queries return empty
collections, the count-and-last-updated queries report zero entries and
a null last_updated, and the mutating operations leave the state alone
and return success false with an explanatory message. -/
theorem degraded_adapter_safe_noops (st : DbState) (h : st.pool = false)
    (d : AnalysisData) (n : ℕ) :
    getAllSentimentData st = [] ∧
    getRecentEntries st n = [] ∧
    getSentimentStats st = [] ∧
    getChartData st = [] ∧
    getDatabaseStats st = ⟨0, none⟩ ∧
    getDatabaseInfo st =
      ⟨0, none, "PostgreSQL (Not Configured)", "disconnected"⟩ ∧
    (insertSentimentAnalysis st d).1 = st ∧
    (insertSentimentAnalysis st d).2.success = false ∧
    (insertSentimentAnalysis st d).2.error.isSome = true ∧
    (clearAllData st).1 = st ∧
    (clearAllData st).2.success = false ∧
    (clearAllData st).2.error.isSome = true := by
  refine ⟨?_, ?_, ?_, ?_, ?_, ?_, ?_, ?_, ?_, ?_, ?_, ?_⟩ <;>
    simp [getAllSentimentData, getRecentEntries, getSentimentStats,
      getChartData, getDatabaseStats, getDatabaseInfo,
      insertSentimentAnalysis, clearAllData, h]

/-- Witness for C4 at a concrete degraded state. -/
theorem degraded_adapter_safe_noops_witness :
    getAllSentimentData degradedState = [] ∧
    getRecentEntries degradedState 10 = [] ∧
    getSentimentStats degradedState = [] ∧
    getChartData degradedState = [] ∧
    getDatabaseStats degradedState = ⟨0, none⟩ ∧
    getDatabaseInfo degradedState =
      ⟨0, none, "PostgreSQL (Not Configured)", "disconnected"⟩ ∧
    (insertSentimentAnalysis degradedState
      (handlerInsertArg validSaveBody)).1 = degradedState ∧
    (insertSentimentAnalysis degradedState
      (handlerInsertArg validSaveBody)).2.success = false ∧
    (insertSentimentAnalysis degradedState
      (handlerInsertArg validSaveBody)).2.error.isSome = true ∧
    (clearAllData degradedState).1 = degradedState ∧
    (clearAllData degradedState).2.success = false ∧
    (clearAllData degradedState).2.error.isSome = true :=
  degraded_adapter_safe_noops degradedState rfl
    (handlerInsertArg validSaveBody) 10

/-- Claim C3: a save-sentiment body whose confidence is the in-range
value 0, or whose text is the empty string, fails the truthiness
presence check, so the endpoint answers 400 with the missing-fields
error and the insert operation is never invoked: the state is returned
untouched. -/
theorem falsy_zero_confidence_rejected (st : DbState) (b : RequestBody)
    (bf : Option String)
    (h : (b.confidence = some 0 ∧ truthyStr b.text = true ∧
          truthyStr b.predicted_class = true ∧
          b.all_probabilities.isSome = true) ∨ b.text = some "") :
    saveSentimentHandler st b bf = (st, missingFieldsResp) := by
  have hreq : hasRequiredFields b = false := by
    rcases h with ⟨hc, _, _, _⟩ | ht
    · simp [hasRequiredFields, truthyNum, hc]
    · simp [hasRequiredFields, truthyStr, ht]
  simp [saveSentimentHandler, hreq]

/-- Witness for C3: a body with confidence 0 and one with empty text,
both rejected with the state untouched. -/
theorem falsy_zero_confidence_rejected_witness :
    saveSentimentHandler emptyConnectedState
      ⟨some "great product", some "positive", some 0,
        some ⟨some 1, some 0, some 0⟩, none⟩ none =
      (emptyConnectedState, missingFieldsResp) ∧
    saveSentimentHandler sampleState5
      ⟨some "", some "positive", some 1,
        some ⟨some 1, some 0, some 0⟩, none⟩ none =
      (sampleState5, missingFieldsResp) :=
  ⟨falsy_zero_confidence_rejected emptyConnectedState _ none
      (Or.inl ⟨rfl, rfl, rfl, rfl⟩),
   falsy_zero_confidence_rejected sampleState5 _ none (Or.inr rfl)⟩

/-- Claim C10: the save-sentiment handler pins the provenance tag: the
record handed to the insert operation carries source web_analyzer no
matter what source the request body supplied, so the stored source is
also web_analyzer; the adapter by itself would honour a caller-supplied
non-empty source and only falls back to the default when none is given. -/
theorem source_always_web_analyzer (b : RequestBody) (s : String)
    (hs : s ≠ "") :
    (handlerInsertArg b).source = some "web_analyzer" ∧
    effectiveSource (handlerInsertArg b).source = "web_analyzer" ∧
    effectiveSource (some s) = s ∧
    effectiveSource none = "web_analyzer" := by
  refine ⟨rfl, rfl, ?_, rfl⟩
  simp [effectiveSource, jsOrStr, hs]

/-- Claim C2: when any required insert field is missing the adapter
operation ends in a boolean success false result with a message, the
process does not crash on an exception, and no row is written: the state
comes back unchanged.  The table itself is modelled from the spec, which
marks text, predicted_class, confidence and a complete probability
triple as required. -/
theorem insert_missing_field_validation (st : DbState) (d : AnalysisData)
    (hpool : st.pool = true)
    (hmiss : d.text = none ∨ d.predicted_class = none ∨
      d.confidence = none ∨ d.all_probabilities = none ∨
      ∃ p, d.all_probabilities = some p ∧
        (p.positive = none ∨ p.negative = none ∨ p.neutral = none)) :
    (insertSentimentAnalysis st d).1 = st ∧
    (insertSentimentAnalysis st d).2.success = false ∧
    (insertSentimentAnalysis st d).2.error.isSome = true := by
  rcases hp : d.all_probabilities with _ | p
  · simp [insertSentimentAnalysis, hpool, hp]
  · have hnull : insertValuesNull d p = true := by
      rcases hmiss with h | h | h | h | ⟨q, hq, hmiss₂⟩
      · simp [insertValuesNull, h]
      · simp [insertValuesNull, h]
      · simp [insertValuesNull, h]
      · rw [hp] at h
        cases h
      · rw [hp] at hq
        injection hq with hq
        subst hq
        rcases hmiss₂ with h₂ | h₂ | h₂ <;> simp [insertValuesNull, h₂]
    simp [insertSentimentAnalysis, hpool, hp, hnull]

/-- Witness for C2: inserting a record with no text is rejected without
writing, against a connected adapter over an empty table. -/
theorem insert_missing_field_validation_witness :
    (insertSentimentAnalysis emptyConnectedState missingTextData).1 =
      emptyConnectedState ∧
    (insertSentimentAnalysis emptyConnectedState
      missingTextData).2.success = false ∧
    (insertSentimentAnalysis emptyConnectedState
      missingTextData).2.error.isSome = true :=
  insert_missing_field_validation emptyConnectedState missingTextData rfl
    (Or.inl rfl)

/-- Claim C6: a successful insert echoes the probability triple back
unchanged: the three values written into the flattened columns are
reshaped into the nested all_probabilities object of the returned
record, a round-trip of the input. -/
theorem insert_probabilities_roundtrip (st : DbState) (d : AnalysisData)
    (t pc : String) (cf pp pn pu : ℚ) (hpool : st.pool = true)
    (ht : d.text = some t) (hpc : d.predicted_class = some pc)
    (hcf : d.confidence = some cf)
    (hprob : d.all_probabilities = some ⟨some pp, some pn, some pu⟩) :
    (insertSentimentAnalysis st d).2.success = true ∧
    (insertSentimentAnalysis st d).2.data.map OutRecord.all_probabilities =
      some ⟨pp, pn, pu⟩ := by
  simp [insertSentimentAnalysis, hpool, hprob, insertValuesNull, ht, hpc,
    hcf]

/-- Witness for C6 at the valid sample payload. -/
theorem insert_probabilities_roundtrip_witness :
    (insertSentimentAnalysis emptyConnectedState
      (handlerInsertArg validSaveBody)).2.success = true ∧
    (insertSentimentAnalysis emptyConnectedState
        (handlerInsertArg validSaveBody)).2.data.map
        OutRecord.all_probabilities =
      some ⟨95/100, 3/100, 2/100⟩ :=
  insert_probabilities_roundtrip emptyConnectedState
    (handlerInsertArg validSaveBody) "great product" "positive" 1
    (95/100) (3/100) (2/100) rfl rfl rfl rfl rfl

/-- Claim C7: DeleteAll on a connected adapter empties the table and is
idempotent: two consecutive calls both succeed with no error, and every
list, recent, stats or count query issued afterwards returns an empty
collection or zero count with a null last_updated. -/
theorem clear_all_idempotent_and_empties (st : DbState)
    (hpool : st.pool = true) (n : ℕ) :
    (clearAllData st).2.success = true ∧
    (clearAllData st).2.error = none ∧
    (clearAllData (clearAllData st).1).2.success = true ∧
    (clearAllData (clearAllData st).1).2.error = none ∧
    (clearAllData st).1.rows = [] ∧
    (clearAllData (clearAllData st).1).1.rows = [] ∧
    getAllSentimentData (clearAllData st).1 = [] ∧
    getRecentEntries (clearAllData st).1 n = [] ∧
    getSentimentStats (clearAllData st).1 = [] ∧
    getDatabaseStats (clearAllData st).1 = ⟨0, none⟩ := by
  simp [clearAllData, hpool, getAllSentimentData, getRecentEntries,
    getSentimentStats, getDatabaseStats, classesOf, List.insertionSort]

/-- Witness for C7 at the five-record sample state. -/
theorem clear_all_idempotent_and_empties_witness :
    (clearAllData sampleState5).2.success = true ∧
    (clearAllData sampleState5).2.error = none ∧
    (clearAllData (clearAllData sampleState5).1).2.success = true ∧
    (clearAllData (clearAllData sampleState5).1).2.error = none ∧
    (clearAllData sampleState5).1.rows = [] ∧
    (clearAllData (clearAllData sampleState5).1).1.rows = [] ∧
    getAllSentimentData (clearAllData sampleState5).1 = [] ∧
    getRecentEntries (clearAllData sampleState5).1 3 = [] ∧
    getSentimentStats (clearAllData sampleState5).1 = [] ∧
    getDatabaseStats (clearAllData sampleState5).1 = ⟨0, none⟩ :=
  clear_all_idempotent_and_empties sampleState5 rfl 3

/-- Claim C9: the broadcast routine catches every failure of its payload
computation and swallows it, so invoking it never yields an error; the
responses of the mutating handlers are therefore independent of whether
the broadcast payload computation failed, and the clear-data response is
a function of the delete outcome alone. -/
theorem broadcast_failures_contained :
    (∀ st fail, ∃ p, broadcastDataUpdate st fail = Except.ok p) ∧
    (∀ st f₁ f₂, clearDataHandler st f₁ = clearDataHandler st f₂) ∧
    (∀ st b f₁ f₂,
      saveSentimentHandler st b f₁ = saveSentimentHandler st b f₂) ∧
    (∀ st fail,
      (clearDataHandler st fail).2 = clearRespOfResult (clearAllData st).2) := by
  have hok : ∀ st fail, ∃ p, broadcastDataUpdate st fail = Except.ok p := by
    intro st fail
    cases fail <;> exact ⟨_, rfl⟩
  refine ⟨hok, ?_, ?_, ?_⟩
  · intro st f₁ f₂
    obtain ⟨p₁, h₁⟩ := hok (clearAllData st).1 f₁
    obtain ⟨p₂, h₂⟩ := hok (clearAllData st).1 f₂
    simp only [clearDataHandler]
    split
    · rw [h₁, h₂]
    · rfl
  · intro st b f₁ f₂
    rfl
  · intro st fail
    obtain ⟨p, h⟩ := hok (clearAllData st).1 fail
    cases hs : (clearAllData st).2.success
    · simp [clearDataHandler, clearRespOfResult, hs]
    · simp [clearDataHandler, clearRespOfResult, hs, h]

/-- Claim C1 is refuted by the code: insertSentimentAnalysis is called
without await, so the handler reads success off a pending Promise and
always takes the 500 branch, even though the insert itself succeeds and
the row lands in the table; the 500 body carries no adapter error
message, and the 200-with-stats-and-broadcast branch is unreachable.
This evaluates the handler at the valid sample payload. -/
theorem save_sentiment_missing_await_bug :
    (insertSentimentAnalysis emptyConnectedState
      (handlerInsertArg validSaveBody)).2.success = true ∧
    (saveSentimentHandler emptyConnectedState validSaveBody none).2.status =
      500 ∧
    (saveSentimentHandler emptyConnectedState validSaveBody none).2.success =
      false ∧
    (saveSentimentHandler emptyConnectedState validSaveBody none).2.error =
      none ∧
    (saveSentimentHandler emptyConnectedState validSaveBody none).2.data =
      none ∧
    (saveSentimentHandler emptyConnectedState validSaveBody none).1.rows =
      (insertSentimentAnalysis emptyConnectedState
        (handlerInsertArg validSaveBody)).1.rows :=
  ⟨rfl, rfl, rfl, rfl, rfl, rfl⟩

/-- Claim C8: the sentiment-data endpoint retrieves everything ordered
by created_at descending and only then truncates to the first N when a
limit is supplied, while total still counts every record. -/
theorem sentiment_data_limit_truncation (st : DbState)
    (hpool : st.pool = true) (n : ℕ) :
    (sentimentDataHandler st (some n)).total = st.rows.length ∧
    (sentimentDataHandler st (some n)).data =
      (getAllSentimentData st).take n ∧
    (sentimentDataHandler st none).data = getAllSentimentData st ∧
    getAllSentimentData st = (st.rows.insertionSort rowGE).map toOutRecord ∧
    List.Sorted rowGE (st.rows.insertionSort rowGE) ∧
    (st.rows.insertionSort rowGE).Perm st.rows := by
  refine ⟨?_, rfl, rfl, ?_, ?_, ?_⟩
  · simp [sentimentDataHandler, getAllSentimentData, hpool,
      List.length_insertionSort]
  · simp [getAllSentimentData, hpool]
  · exact List.sorted_insertionSort rowGE st.rows
  · exact List.perm_insertionSort rowGE st.rows

/-- Witness for C8: limit 2 against the five stored sample records
returns exactly the two most recently created ones, with total 5. -/
theorem sentiment_data_limit_truncation_witness :
    sentimentDataHandler sampleState5 (some 2) =
      ⟨true, [toOutRecord rowE, toOutRecord rowD], 5⟩ ∧
    ((sentimentDataHandler sampleState5 (some 2)).total =
      sampleState5.rows.length ∧
    (sentimentDataHandler sampleState5 (some 2)).data =
      (getAllSentimentData sampleState5).take 2 ∧
    (sentimentDataHandler sampleState5 none).data =
      getAllSentimentData sampleState5 ∧
    getAllSentimentData sampleState5 =
      (sampleState5.rows.insertionSort rowGE).map toOutRecord ∧
    List.Sorted rowGE (sampleState5.rows.insertionSort rowGE) ∧
    (sampleState5.rows.insertionSort rowGE).Perm sampleState5.rows) :=
  ⟨rfl, sentiment_data_limit_truncation sampleState5 rfl 2⟩

/-- Claim C5: ComputeStats meets the statistics contract: one entry per
distinct predicted_class with the exact group count, the mean confidence
rounded to 4 decimals and the percentage of the grand total rounded to
2 decimals, ordered by descending count, and empty output for an empty
or degraded store. -/
theorem compute_stats_meets_spec (st : DbState) :
    statsSpec st (getSentimentStats st) := by
  refine ⟨?_, ?_, ?_⟩
  · intro h
    simp [getSentimentStats, h]
  · intro h
    cases hp : st.pool
    · simp [getSentimentStats, hp]
    · simp [getSentimentStats, hp, h, classesOf, List.insertionSort]
  · intro hp
    have hunfold : getSentimentStats st =
        ((classesOf st.rows).map (mkStatEntry st.rows)).insertionSort
          statGE := by
      simp [getSentimentStats, hp]
    refine ⟨?_, ?_, ?_, ?_⟩
    · rw [hunfold]
      have h₁ := (List.perm_insertionSort statGE
        ((classesOf st.rows).map (mkStatEntry st.rows))).map
        StatEntry.predicted_class
      rw [List.map_map] at h₁
      have h₂ : (classesOf st.rows).map
          (StatEntry.predicted_class ∘ mkStatEntry st.rows) =
          classesOf st.rows := List.map_id (classesOf st.rows)
      rwa [h₂] at h₁
    · intro c
      simp [classesOf, List.mem_dedup]
    · intro e he
      rw [hunfold, List.mem_insertionSort] at he
      obtain ⟨c, _, rfl⟩ := List.mem_map.mp he
      exact ⟨rfl, rfl, rfl⟩
    · rw [hunfold]
      exact List.sorted_insertionSort statGE _

/-- Witness for C5: the contract instantiated at the five-record sample
state, with the stats list evaluated concretely and the degraded case
discharged. -/
theorem compute_stats_meets_spec_witness :
    statsSpec sampleState5 (getSentimentStats sampleState5) ∧
    (getSentimentStats sampleState5).map StatEntry.predicted_class =
      ["positive", "negative", "neutral"] ∧
    (getSentimentStats sampleState5).map StatEntry.count = [3, 1, 1] ∧
    getSentimentStats degradedState = [] :=
  ⟨compute_stats_meets_spec sampleState5, rfl, rfl,
    (compute_stats_meets_spec degradedState).1 rfl⟩

/-- Witness for C10: a body that tries to supply a custom source. -/
theorem source_always_web_analyzer_witness :
    (handlerInsertArg ⟨some "t", some "positive", some 1,
        some ⟨some 1, some 0, some 0⟩, some "cli_import"⟩).source =
      some "web_analyzer" ∧
    effectiveSource (handlerInsertArg ⟨some "t", some "positive", some 1,
        some ⟨some 1, some 0, some 0⟩, some "cli_import"⟩).source =
      "web_analyzer" ∧
    effectiveSource (some "cli_import") = "cli_import" ∧
    effectiveSource none = "web_analyzer" :=
  source_always_web_analyzer _ "cli_import" (by decide)

end BrinApi
